import Mathlib

/-!
Shallow embedding of the SalmonFlow core logic: flow-zone classification
(`getZone` in `app/(tabs)/settings.tsx`, `getStatus` in
`components/FlowGauge.tsx`), gauge projection (`cfsToAngle` in
`components/FlowGauge.tsx`, `valueToDegrees` in `components/Paywall.tsx`)
and weekly trend aggregation (`calculateStats` in `app/(tabs)/settings.tsx`).

JavaScript numbers are modelled as rationals (`ℚ`).  `Math.round` is
JavaScript's round-half-toward-positive-infinity.  The single place where
the source can divide by zero (the trend percent computation) is modelled
with an explicit `JSNum` type carrying `NaN` and the infinities, exactly
mirroring IEEE division results for a zero denominator; everywhere else the
source divides by nonzero constants or by list lengths that the claims
constrain to be positive.  Empty-input behaviour of `Math.max(...[])`
(which yields `-Infinity` in JavaScript) is not modelled; every claim about
`calculateStats` restricts to non-empty input.
-/

namespace SalmonFlow

/-- JavaScript `Math.round`: round half toward positive infinity. -/
def jsRound (q : ℚ) : ℤ := ⌊q + 1/2⌋

/-- A JavaScript number that may be `NaN` or infinite: the possible results
of the unguarded division in the trend computation. -/
inductive JSNum where
  | nan : JSNum
  | inf : JSNum
  | ninf : JSNum
  | fin : ℚ → JSNum
deriving DecidableEq

/-- JavaScript division `a / b` for finite operands: ordinary division for a
nonzero denominator; for a zero denominator the result is `±Infinity`
according to the numerator's sign, and `NaN` for `0 / 0`. -/
def jsDiv (a b : ℚ) : JSNum :=
  if b ≠ 0 then .fin (a / b)
  else if 0 < a then .inf
  else if a < 0 then .ninf
  else .nan

/-- Multiplication by the positive finite constant 100 (`* 100` in the
source): infinities and `NaN` are absorbing. -/
def JSNum.mul100 : JSNum → JSNum
  | .fin q => .fin (q * 100)
  | .inf => .inf
  | .ninf => .ninf
  | .nan => .nan

/-- `Math.round` extended to `JSNum`: the identity on `NaN` and infinities. -/
def JSNum.jround : JSNum → JSNum
  | .fin q => .fin (jsRound q : ℤ)
  | .inf => .inf
  | .ninf => .ninf
  | .nan => .nan

/-- The JavaScript comparison `x > c` for a finite constant `c`
(`NaN` comparisons are false). -/
def JSNum.gtc : JSNum → ℚ → Bool
  | .fin q, c => decide (c < q)
  | .inf, _ => true
  | .ninf, _ => false
  | .nan, _ => false

/-- The JavaScript comparison `x < c` for a finite constant `c`
(`NaN` comparisons are false). -/
def JSNum.ltc : JSNum → ℚ → Bool
  | .fin q, c => decide (q < c)
  | .inf, _ => false
  | .ninf, _ => true
  | .nan, _ => false

/-- `Math.abs` extended to `JSNum`. -/
def JSNum.jabs : JSNum → JSNum
  | .fin q => .fin |q|
  | .inf => .inf
  | .ninf => .inf
  | .nan => .nan

end SalmonFlow

namespace SalmonFlow.Settings

/-- `const PRIME_ZONE_MIN = 350` in `settings.tsx`. -/
def PRIME_ZONE_MIN : ℚ := 350

/-- `const PRIME_ZONE_MAX = 750` in `settings.tsx`. -/
def PRIME_ZONE_MAX : ℚ := 750

/-- `const CAUTION_ZONE_MAX = 1200` in `settings.tsx`. -/
def CAUTION_ZONE_MAX : ℚ := 1200

/-- The TypeScript union `'low' | 'prime' | 'caution' | 'blown'`. -/
inductive SZone where
  | low : SZone
  | prime : SZone
  | caution : SZone
  | blown : SZone
deriving DecidableEq

/-- `getZone` in `settings.tsx`: early-return chain of comparisons returning
a `{ zone, label }` pair. -/
def getZone (cfs : ℚ) : SZone × String :=
  if cfs < PRIME_ZONE_MIN then (.low, "Low")
  else if cfs ≤ PRIME_ZONE_MAX then (.prime, "Prime")
  else if cfs ≤ CAUTION_ZONE_MAX then (.caution, "Caution")
  else (.blown, "Blown Out")

/-- The fields of `DayData` that `calculateStats` reads (`date`, `dayShort`,
`waterTemp` and `zoneLabel` are display-only and omitted).  In the source the
`zone` field is populated by `generateWeekData` as `getZone(cfs).zone`. -/
structure DayData where
  dayName : String
  cfs : ℚ
  zone : SZone
deriving DecidableEq

/-- The volatility union `'stable' | 'moderate' | 'volatile'`. -/
inductive Volatility where
  | stable : Volatility
  | moderate : Volatility
  | volatile : Volatility
deriving DecidableEq

/-- The trend union `'rising' | 'falling' | 'stable'`. -/
inductive Trend where
  | rising : Trend
  | falling : Trend
  | stable : Trend
deriving DecidableEq

/-- The `WeekStats` interface of `settings.tsx`.  `weekTrendPercent` is a
`JSNum` because the source computation can produce `NaN`/`Infinity` when the
first-half average is zero. -/
structure WeekStats where
  avgFlow : ℤ
  peakFlow : ℚ
  peakDay : String
  lowestFlow : ℚ
  lowestDay : String
  daysInPrime : ℕ
  daysInLow : ℕ
  daysInCaution : ℕ
  flowRange : ℚ
  volatility : Volatility
  weekTrend : Trend
  weekTrendPercent : JSNum
  primePercentage : ℤ
deriving DecidableEq

/-- `calculateStats` in `settings.tsx`, line for line.  `Math.max(...xs)` /
`Math.min(...xs)` become `List.max?` / `List.min?` with a default used only
on empty input; `data.find(...)?.dayName || ''` becomes
`(data.find? ...).map (·.dayName) |>.getD ""`; `cfsValues.slice(0, 3)` is
`take 3`; `cfsValues.slice(-3)` is `drop (length - 3)` (for lists shorter
than 3, both return the whole list, as in JavaScript). -/
def calculateStats (data : List DayData) : WeekStats :=
  let cfsValues := data.map (·.cfs)
  let avgFlow := jsRound (cfsValues.sum / (cfsValues.length : ℚ))
  let peakFlow := cfsValues.max?.getD 0
  let lowestFlow := cfsValues.min?.getD 0
  let flowRange := peakFlow - lowestFlow
  let peakDay := ((data.find? (fun d => decide (d.cfs = peakFlow))).map (·.dayName)).getD ""
  let lowestDay := ((data.find? (fun d => decide (d.cfs = lowestFlow))).map (·.dayName)).getD ""
  let daysInPrime := (data.filter (fun d => decide (d.zone = SZone.prime))).length
  let daysInLow := (data.filter (fun d => decide (d.zone = SZone.low))).length
  let daysInCaution := (data.filter (fun d => decide (d.zone = SZone.caution))).length
  let volatility : Volatility :=
    if flowRange > 400 then .volatile
    else if flowRange > 200 then .moderate
    else .stable
  let firstHalfAvg := (cfsValues.take 3).sum / 3
  let secondHalfAvg := (cfsValues.drop (cfsValues.length - 3)).sum / 3
  let trendDiff := secondHalfAvg - firstHalfAvg
  let weekTrendPercentRounded := ((jsDiv trendDiff firstHalfAvg).mul100).jround
  let weekTrend : Trend :=
    if weekTrendPercentRounded.gtc 10 then .rising
    else if weekTrendPercentRounded.ltc (-10) then .falling
    else .stable
  { avgFlow := avgFlow
    peakFlow := peakFlow
    peakDay := peakDay
    lowestFlow := lowestFlow
    lowestDay := lowestDay
    daysInPrime := daysInPrime
    daysInLow := daysInLow
    daysInCaution := daysInCaution
    flowRange := flowRange
    volatility := volatility
    weekTrend := weekTrend
    weekTrendPercent := weekTrendPercentRounded.jabs
    primePercentage := jsRound ((daysInPrime : ℚ) / 7 * 100) }

end SalmonFlow.Settings

namespace SalmonFlow.FlowGauge

/-- `const MAX_CFS = 2000` in `FlowGauge.tsx`. -/
def MAX_CFS : ℚ := 2000

/-- A row of the `ZONES` table in `FlowGauge.tsx`. -/
structure GZone where
  label : String
  min : ℚ
  max : ℚ
  color : String
deriving DecidableEq

/-- The `ZONES` table of `FlowGauge.tsx`. -/
def ZONES : List GZone :=
  [⟨"LOW", 0, 350, "#3B82F6"⟩,
   ⟨"PRIME", 350, 750, "#10B981"⟩,
   ⟨"CAUTION", 750, 1200, "#F59E0B"⟩,
   ⟨"BLOWN OUT", 1200, MAX_CFS, "#EF4444"⟩]

/-- `getStatus` in `FlowGauge.tsx`: scan `ZONES` for the first row with
`cfs >= zone.min && cfs < zone.max` and return its `{ label, color }`;
if no row matches, fall through to `ZONES[ZONES.length - 1]`.  Modelled as
returning the `(label, color)` pair. -/
def getStatus (cfs : ℚ) : String × String :=
  match ZONES.find? (fun z => decide (z.min ≤ cfs) && decide (cfs < z.max)) with
  | some z => (z.label, z.color)
  | none =>
      let z := ZONES.getLastD ⟨"", 0, 0, ""⟩
      (z.label, z.color)

/-- `cfsToAngle` in `FlowGauge.tsx`: clamp to `[0, MAX_CFS]` and map linearly
onto the 270-degree sweep from -135 to +135. -/
def cfsToAngle (cfs : ℚ) : ℚ :=
  let clampedCfs := min (max cfs 0) MAX_CFS
  let ratio := clampedCfs / MAX_CFS
  let angle := -135 + ratio * 270
  angle

end SalmonFlow.FlowGauge

namespace SalmonFlow.Paywall

/-- `const MAX_CFS = 2000` in `Paywall.tsx`. -/
def MAX_CFS : ℚ := 2000

/-- `valueToDegrees` in `Paywall.tsx`: clamp to `[0, MAX_CFS]` and map
linearly onto `[0, 180]` degrees. -/
def valueToDegrees (val : ℚ) : ℚ :=
  let clamped := min (max val 0) MAX_CFS
  clamped / MAX_CFS * 180

end SalmonFlow.Paywall

namespace SalmonFlow.SpecSide

open SalmonFlow.Settings

/-- Modelled from the spec's words (for comparison against the source):
`percentDiff = (secondHalfAvg - firstHalfAvg) / firstHalfAvg * 100`, the
unrounded trend percent of §4.3, over the ordered cfs values. -/
def spec_percentDiff (cfsValues : List ℚ) : ℚ :=
  let firstHalfAvg := (cfsValues.take 3).sum / 3
  let secondHalfAvg := (cfsValues.drop (cfsValues.length - 3)).sum / 3
  (secondHalfAvg - firstHalfAvg) / firstHalfAvg * 100

/-- Modelled from the spec's words (for comparison against the source):
`primePercentage = round(daysInZone[PRIME] / totalDays * 100)` where
`totalDays` is the number of readings. -/
def spec_primePercentage (data : List DayData) : ℤ :=
  jsRound (((data.filter (fun d => decide (d.zone = SZone.prime))).length : ℚ)
    / (data.length : ℚ) * 100)

end SalmonFlow.SpecSide

namespace SalmonFlow.Settings

/-- Builds a `DayData` the way `generateWeekData` does: the `zone` field is
`getZone(cfs).zone`. -/
def mkDay (name : String) (cfs : ℚ) : DayData := ⟨name, cfs, (getZone cfs).1⟩

/-- The mock week of `generateWeekData`: cfs `[420, 385, 520, 745, 680, 542, 510]`. -/
def exMockWeek : List DayData :=
  [mkDay "Sunday" 420, mkDay "Monday" 385, mkDay "Tuesday" 520, mkDay "Wednesday" 745,
   mkDay "Thursday" 680, mkDay "Friday" 542, mkDay "Saturday" 510]

/-- The spec's tie-break example: cfs `[500, 500, 100, 100, 900, 200, 300]`. -/
def exTieWeek : List DayData :=
  [mkDay "Sun" 500, mkDay "Mon" 500, mkDay "Tue" 100, mkDay "Wed" 100,
   mkDay "Thu" 900, mkDay "Fri" 200, mkDay "Sat" 300]

/-- A reordering of `exTieWeek` (same multiset of readings). -/
def exTieWeekShuffled : List DayData :=
  [mkDay "Sat" 300, mkDay "Thu" 900, mkDay "Sun" 500, mkDay "Wed" 100,
   mkDay "Mon" 500, mkDay "Fri" 200, mkDay "Tue" 100]

/-- A week whose halves average 1000 and 1104: percent difference 10.4. -/
def exRiseWeek : List DayData :=
  [mkDay "Sun" 1000, mkDay "Mon" 1000, mkDay "Tue" 1000, mkDay "Wed" 1000,
   mkDay "Thu" 1104, mkDay "Fri" 1104, mkDay "Sat" 1104]

/-- A week whose halves average 1000 and 895: percent difference -10.5. -/
def exFallWeek : List DayData :=
  [mkDay "Sun" 1000, mkDay "Mon" 1000, mkDay "Tue" 1000, mkDay "Wed" 1000,
   mkDay "Thu" 895, mkDay "Fri" 895, mkDay "Sat" 895]

/-- A week whose first three readings are 0 (zero first-half average) and whose
last three are 100. -/
def exZeroStartWeek : List DayData :=
  [mkDay "Sun" 0, mkDay "Mon" 0, mkDay "Tue" 0, mkDay "Wed" 100,
   mkDay "Thu" 100, mkDay "Fri" 100, mkDay "Sat" 100]

/-- A week of all-zero readings (zero first- and second-half averages). -/
def exAllZeroWeek : List DayData :=
  [mkDay "Sun" 0, mkDay "Mon" 0, mkDay "Tue" 0, mkDay "Wed" 0,
   mkDay "Thu" 0, mkDay "Fri" 0, mkDay "Sat" 0]

/-- A week with one reading in the blown-out band (1500 cfs). -/
def exBlownWeek : List DayData :=
  [mkDay "Sun" 500, mkDay "Mon" 500, mkDay "Tue" 500, mkDay "Wed" 1500,
   mkDay "Thu" 500, mkDay "Fri" 500, mkDay "Sat" 500]

/-- A single prime-zone reading. -/
def exSingle : List DayData := [mkDay "Mon" 500]

end SalmonFlow.Settings

/-! ## Helper lemmas -/

namespace SalmonFlow

open Settings FlowGauge

/-- `getZone` on the low band. -/
theorem getZone_eq_low {cfs : ℚ} (h : cfs < 350) :
    Settings.getZone cfs = (Settings.SZone.low, "Low") := by
  unfold Settings.getZone Settings.PRIME_ZONE_MIN
  rw [if_pos h]

/-- `getZone` on its prime band (upper bound inclusive). -/
theorem getZone_eq_prime {cfs : ℚ} (h1 : 350 ≤ cfs) (h2 : cfs ≤ 750) :
    Settings.getZone cfs = (Settings.SZone.prime, "Prime") := by
  unfold Settings.getZone Settings.PRIME_ZONE_MIN Settings.PRIME_ZONE_MAX
  rw [if_neg (not_lt.mpr h1), if_pos h2]

/-- `getZone` on its caution band (both bounds shifted by the inclusive
upper bounds). -/
theorem getZone_eq_caution {cfs : ℚ} (h1 : 750 < cfs) (h2 : cfs ≤ 1200) :
    Settings.getZone cfs = (Settings.SZone.caution, "Caution") := by
  unfold Settings.getZone Settings.PRIME_ZONE_MIN Settings.PRIME_ZONE_MAX
    Settings.CAUTION_ZONE_MAX
  rw [if_neg (by intro hc; linarith), if_neg (not_le.mpr h1), if_pos h2]

/-- `getZone` on its blown band. -/
theorem getZone_eq_blown {cfs : ℚ} (h : 1200 < cfs) :
    Settings.getZone cfs = (Settings.SZone.blown, "Blown Out") := by
  unfold Settings.getZone Settings.PRIME_ZONE_MIN Settings.PRIME_ZONE_MAX
    Settings.CAUTION_ZONE_MAX
  rw [if_neg (by intro hc; linarith), if_neg (by intro hc; linarith),
    if_neg (not_le.mpr h)]

/-- `getStatus` on the low band. -/
theorem getStatus_eq_low {cfs : ℚ} (h0 : 0 ≤ cfs) (h : cfs < 350) :
    FlowGauge.getStatus cfs = ("LOW", "#3B82F6") := by
  have hf : ZONES.find? (fun z => decide (z.min ≤ cfs) && decide (cfs < z.max))
      = some ⟨"LOW", 0, 350, "#3B82F6"⟩ := by
    rw [ZONES]
    exact List.find?_cons_of_pos _
      (by simp only [Bool.and_eq_true, decide_eq_true_eq]; exact ⟨h0, h⟩)
  unfold FlowGauge.getStatus
  rw [hf]

/-- `getStatus` on the prime band: the lower boundary 350 is included. -/
theorem getStatus_eq_prime {cfs : ℚ} (h1 : 350 ≤ cfs) (h2 : cfs < 750) :
    FlowGauge.getStatus cfs = ("PRIME", "#10B981") := by
  have hf : ZONES.find? (fun z => decide (z.min ≤ cfs) && decide (cfs < z.max))
      = some ⟨"PRIME", 350, 750, "#10B981"⟩ := by
    rw [ZONES]
    rw [List.find?_cons_of_neg _
      (by simp only [Bool.and_eq_true, decide_eq_true_eq, not_and]; intro _; linarith)]
    exact List.find?_cons_of_pos _
      (by simp only [Bool.and_eq_true, decide_eq_true_eq]; exact ⟨h1, h2⟩)
  unfold FlowGauge.getStatus
  rw [hf]

/-- `getStatus` on the caution band: the lower boundary 750 is included. -/
theorem getStatus_eq_caution {cfs : ℚ} (h1 : 750 ≤ cfs) (h2 : cfs < 1200) :
    FlowGauge.getStatus cfs = ("CAUTION", "#F59E0B") := by
  have hf : ZONES.find? (fun z => decide (z.min ≤ cfs) && decide (cfs < z.max))
      = some ⟨"CAUTION", 750, 1200, "#F59E0B"⟩ := by
    rw [ZONES]
    rw [List.find?_cons_of_neg _
      (by simp only [Bool.and_eq_true, decide_eq_true_eq, not_and]; intro _; linarith)]
    rw [List.find?_cons_of_neg _
      (by simp only [Bool.and_eq_true, decide_eq_true_eq, not_and]; intro _; linarith)]
    exact List.find?_cons_of_pos _
      (by simp only [Bool.and_eq_true, decide_eq_true_eq]; exact ⟨h1, h2⟩)
  unfold FlowGauge.getStatus
  rw [hf]

/-- `getStatus` at and above 1200: the table row matches below `MAX_CFS`, and
at or above `MAX_CFS` the scan falls through to the default last row; both
give `BLOWN OUT`. -/
theorem getStatus_eq_blown {cfs : ℚ} (h : 1200 ≤ cfs) :
    FlowGauge.getStatus cfs = ("BLOWN OUT", "#EF4444") := by
  have hm : (MAX_CFS : ℚ) = 2000 := rfl
  rcases lt_or_le cfs MAX_CFS with hlt | hge
  · have hf : ZONES.find? (fun z => decide (z.min ≤ cfs) && decide (cfs < z.max))
        = some ⟨"BLOWN OUT", 1200, MAX_CFS, "#EF4444"⟩ := by
      rw [ZONES]
      rw [List.find?_cons_of_neg _
        (by simp only [Bool.and_eq_true, decide_eq_true_eq, not_and]; intro _; linarith)]
      rw [List.find?_cons_of_neg _
        (by simp only [Bool.and_eq_true, decide_eq_true_eq, not_and]; intro _; linarith)]
      rw [List.find?_cons_of_neg _
        (by simp only [Bool.and_eq_true, decide_eq_true_eq, not_and]; intro _; linarith)]
      exact List.find?_cons_of_pos _
        (by simp only [Bool.and_eq_true, decide_eq_true_eq]; exact ⟨h, hlt⟩)
    unfold FlowGauge.getStatus
    rw [hf]
  · have hf : ZONES.find? (fun z => decide (z.min ≤ cfs) && decide (cfs < z.max))
        = none := by
      rw [ZONES]
      rw [List.find?_cons_of_neg _
        (by simp only [Bool.and_eq_true, decide_eq_true_eq, not_and]
            intro _
            rw [hm] at hge
            intro hc; linarith)]
      rw [List.find?_cons_of_neg _
        (by simp only [Bool.and_eq_true, decide_eq_true_eq, not_and]
            intro _
            rw [hm] at hge
            intro hc; linarith)]
      rw [List.find?_cons_of_neg _
        (by simp only [Bool.and_eq_true, decide_eq_true_eq, not_and]
            intro _
            rw [hm] at hge
            intro hc; linarith)]
      rw [List.find?_cons_of_neg _
        (by simp only [Bool.and_eq_true, decide_eq_true_eq, not_and]
            intro _
            exact not_lt.mpr hge)]
      rfl
    unfold FlowGauge.getStatus
    rw [hf]
    rfl

/-- `getStatus` on negative input: no table row matches (every row needs
`z.min ≤ cfs`), so the scan falls through to the default last row. -/
theorem getStatus_eq_neg {cfs : ℚ} (h : cfs < 0) :
    FlowGauge.getStatus cfs = ("BLOWN OUT", "#EF4444") := by
  have hf : ZONES.find? (fun z => decide (z.min ≤ cfs) && decide (cfs < z.max))
      = none := by
    rw [ZONES]
    rw [List.find?_cons_of_neg _
      (by simp only [Bool.and_eq_true, decide_eq_true_eq, not_and]; intro hc; linarith)]
    rw [List.find?_cons_of_neg _
      (by simp only [Bool.and_eq_true, decide_eq_true_eq, not_and]; intro hc; linarith)]
    rw [List.find?_cons_of_neg _
      (by simp only [Bool.and_eq_true, decide_eq_true_eq, not_and]; intro hc; linarith)]
    rw [List.find?_cons_of_neg _
      (by simp only [Bool.and_eq_true, decide_eq_true_eq, not_and]; intro hc; linarith)]
    rfl
  unfold FlowGauge.getStatus
  rw [hf]
  rfl

end SalmonFlow

namespace SalmonFlow

open Settings

/-- `peakFlow` field unfolded. -/
theorem calculateStats_peakFlow (data : List DayData) :
    (calculateStats data).peakFlow = (data.map (·.cfs)).max?.getD 0 := rfl

/-- `lowestFlow` field unfolded. -/
theorem calculateStats_lowestFlow (data : List DayData) :
    (calculateStats data).lowestFlow = (data.map (·.cfs)).min?.getD 0 := rfl

/-- `peakDay` field unfolded. -/
theorem calculateStats_peakDay (data : List DayData) :
    (calculateStats data).peakDay
      = ((data.find? (fun d => decide (d.cfs = (data.map (·.cfs)).max?.getD 0))).map
          (·.dayName)).getD "" := rfl

/-- `lowestDay` field unfolded. -/
theorem calculateStats_lowestDay (data : List DayData) :
    (calculateStats data).lowestDay
      = ((data.find? (fun d => decide (d.cfs = (data.map (·.cfs)).min?.getD 0))).map
          (·.dayName)).getD "" := rfl

/-- `avgFlow` field unfolded. -/
theorem calculateStats_avgFlow (data : List DayData) :
    (calculateStats data).avgFlow
      = jsRound ((data.map (·.cfs)).sum / ((data.map (·.cfs)).length : ℚ)) := rfl

/-- `daysInPrime` field unfolded. -/
theorem calculateStats_daysInPrime (data : List DayData) :
    (calculateStats data).daysInPrime
      = (data.filter (fun d => decide (d.zone = SZone.prime))).length := rfl

/-- `daysInLow` field unfolded. -/
theorem calculateStats_daysInLow (data : List DayData) :
    (calculateStats data).daysInLow
      = (data.filter (fun d => decide (d.zone = SZone.low))).length := rfl

/-- `daysInCaution` field unfolded. -/
theorem calculateStats_daysInCaution (data : List DayData) :
    (calculateStats data).daysInCaution
      = (data.filter (fun d => decide (d.zone = SZone.caution))).length := rfl

/-- `flowRange` field unfolded. -/
theorem calculateStats_flowRange (data : List DayData) :
    (calculateStats data).flowRange
      = (data.map (·.cfs)).max?.getD 0 - (data.map (·.cfs)).min?.getD 0 := rfl

/-- `volatility` field unfolded. -/
theorem calculateStats_volatility (data : List DayData) :
    (calculateStats data).volatility
      = (if (data.map (·.cfs)).max?.getD 0 - (data.map (·.cfs)).min?.getD 0 > 400
          then Volatility.volatile
          else if (data.map (·.cfs)).max?.getD 0 - (data.map (·.cfs)).min?.getD 0 > 200
          then Volatility.moderate
          else Volatility.stable) := rfl

/-- The rounded trend percent shared by `weekTrend` and `weekTrendPercent`. -/
def trendRounded (data : List DayData) : JSNum :=
  ((jsDiv ((((data.map (·.cfs)).drop ((data.map (·.cfs)).length - 3)).sum / 3)
      - (((data.map (·.cfs)).take 3).sum / 3))
    (((data.map (·.cfs)).take 3).sum / 3)).mul100).jround

/-- `weekTrend` field unfolded. -/
theorem calculateStats_weekTrend (data : List DayData) :
    (calculateStats data).weekTrend
      = (if (trendRounded data).gtc 10 then Trend.rising
          else if (trendRounded data).ltc (-10) then Trend.falling
          else Trend.stable) := rfl

/-- `weekTrendPercent` field unfolded. -/
theorem calculateStats_weekTrendPercent (data : List DayData) :
    (calculateStats data).weekTrendPercent = (trendRounded data).jabs := rfl

/-- `primePercentage` field unfolded: the denominator is the constant 7. -/
theorem calculateStats_primePercentage (data : List DayData) :
    (calculateStats data).primePercentage
      = jsRound (((data.filter (fun d => decide (d.zone = SZone.prime))).length : ℚ)
          / 7 * 100) := rfl

/-- `List.max?.getD` of a non-empty list of rationals is a member and an upper
bound. -/
theorem max_getD_spec (l : List ℚ) (hl : l ≠ []) :
    l.max?.getD 0 ∈ l ∧ ∀ a ∈ l, a ≤ l.max?.getD 0 := by
  cases hmax : l.maximum with
  | bot => exact absurd hmax (List.maximum_ne_bot_of_ne_nil hl)
  | coe m =>
    have hchar := List.maximum_eq_coe_iff.mp hmax
    have heq : l.max?.getD 0 = m := by
      rw [List.getD_max?_eq_unbot'_maximum, hmax]
      rfl
    rw [heq]
    exact hchar

/-- `List.min?.getD` of a non-empty list of rationals is a member and a lower
bound. -/
theorem min_getD_spec (l : List ℚ) (hl : l ≠ []) :
    l.min?.getD 0 ∈ l ∧ ∀ a ∈ l, l.min?.getD 0 ≤ a := by
  cases hmin : l.minimum with
  | top => exact absurd hmin (List.minimum_ne_top_of_ne_nil hl)
  | coe m =>
    have hchar := List.minimum_eq_coe_iff.mp hmin
    have heq : l.min?.getD 0 = m := by
      rw [List.getD_min?_eq_untop'_minimum, hmin]
      rfl
    rw [heq]
    exact hchar

/-- `List.find?` returns the first satisfying element: there is an index whose
entry is the result, whose predicate holds, and before which the predicate
fails everywhere. -/
theorem find?_first {α : Type} {p : α → Bool} {l : List α} {a : α}
    (h : l.find? p = some a) :
    ∃ i : Fin l.length, l.get i = a ∧ p a = true ∧
      ∀ j : Fin l.length, (j : ℕ) < (i : ℕ) → p (l.get j) = false := by
  induction l with
  | nil => simp at h
  | cons x tl ih =>
    by_cases hx : p x = true
    · rw [List.find?_cons_of_pos _ hx] at h
      have hxa : x = a := by injection h
      subst hxa
      refine ⟨⟨0, by simp⟩, rfl, hx, ?_⟩
      intro j hj
      exact absurd hj (Nat.not_lt_zero j.val)
    · rw [List.find?_cons_of_neg _ hx] at h
      obtain ⟨i, hget, hpa, hprev⟩ := ih h
      refine ⟨⟨i.val + 1, Nat.succ_lt_succ i.isLt⟩, by simpa using hget, hpa, ?_⟩
      rintro ⟨jv, hjlt⟩ hj
      cases jv with
      | zero => simpa using hx
      | succ k =>
        have hk : k < tl.length := by simpa using hjlt
        have := hprev ⟨k, hk⟩ (by simpa using hj)
        simpa using this

/-- The four zone values partition any reading list: the per-zone filter
lengths sum to the list length. -/
theorem zone_counts_partition (data : List DayData) :
    (data.filter (fun d => decide (d.zone = SZone.prime))).length
      + (data.filter (fun d => decide (d.zone = SZone.low))).length
      + (data.filter (fun d => decide (d.zone = SZone.caution))).length
      + (data.filter (fun d => decide (d.zone = SZone.blown))).length
      = data.length := by
  induction data with
  | nil => rfl
  | cons d tl ih =>
    cases hz : d.zone <;> simp [List.filter_cons, hz] <;> omega

end SalmonFlow

/-! ## Claims -/

namespace SalmonFlow

open Settings FlowGauge

/-- C1: zone classification bands.  Corrected: `getStatus` (FlowGauge) puts
every boundary in the higher band as claimed, but `getZone` (settings) uses
inclusive upper bounds, so 750 is PRIME (not CAUTION) and 1200 is CAUTION
(not BLOWN_OUT) there; 350 is PRIME in both.  This theorem states the bands
each function actually realises. -/
theorem C1_zone_bands (cfs : ℚ) (h0 : 0 ≤ cfs) :
    (cfs < 350 → (FlowGauge.getStatus cfs).1 = "LOW"
      ∧ (Settings.getZone cfs).1 = Settings.SZone.low) ∧
    (350 ≤ cfs → cfs < 750 → (FlowGauge.getStatus cfs).1 = "PRIME") ∧
    (750 ≤ cfs → cfs < 1200 → (FlowGauge.getStatus cfs).1 = "CAUTION") ∧
    (1200 ≤ cfs → (FlowGauge.getStatus cfs).1 = "BLOWN OUT") ∧
    (350 ≤ cfs → cfs ≤ 750 → (Settings.getZone cfs).1 = Settings.SZone.prime) ∧
    (750 < cfs → cfs ≤ 1200 → (Settings.getZone cfs).1 = Settings.SZone.caution) ∧
    (1200 < cfs → (Settings.getZone cfs).1 = Settings.SZone.blown) := by
  refine ⟨fun h => ⟨?_, ?_⟩, fun h1 h2 => ?_, fun h1 h2 => ?_, fun h1 => ?_,
    fun h1 h2 => ?_, fun h1 h2 => ?_, fun h1 => ?_⟩
  · rw [getStatus_eq_low h0 h]
  · rw [getZone_eq_low h]
  · rw [getStatus_eq_prime h1 h2]
  · rw [getStatus_eq_caution h1 h2]
  · rw [getStatus_eq_blown h1]
  · rw [getZone_eq_prime h1 h2]
  · rw [getZone_eq_caution h1 h2]
  · rw [getZone_eq_blown h1]

/-- C1 witness: the boundary 350 is PRIME in both classification functions. -/
theorem C1_zone_bands_witness :
    (FlowGauge.getStatus 350).1 = "PRIME"
      ∧ (Settings.getZone 350).1 = Settings.SZone.prime :=
  ⟨(C1_zone_bands 350 (by norm_num)).2.1 (by norm_num) (by norm_num),
   (C1_zone_bands 350 (by norm_num)).2.2.2.2.1 (by norm_num) (by norm_num)⟩

/-- C1 counterexample: in `getZone`, 750 is PRIME (the claim says CAUTION) and
1200 is CAUTION (the claim says BLOWN_OUT). -/
theorem C1_counterexample :
    (Settings.getZone 750).1 = Settings.SZone.prime
      ∧ (Settings.getZone 750).1 ≠ Settings.SZone.caution
      ∧ (Settings.getZone 1200).1 = Settings.SZone.caution
      ∧ (Settings.getZone 1200).1 ≠ Settings.SZone.blown := by
  decide

/-- C4: for every non-negative cfs, exactly one zone of the FlowGauge table
matches (reading the last band as open-ended, as the fall-through default
makes it), `getStatus` returns that zone's label and color, and every cfs at
or above 1200 — including at or above the table's hard-coded upper bound
2000 — classifies as BLOWN OUT. -/
theorem C4_total_blown (cfs : ℚ) (h0 : 0 ≤ cfs) :
    (∃ z ∈ FlowGauge.ZONES, FlowGauge.getStatus cfs = (z.label, z.color)
      ∧ z.min ≤ cfs ∧ (cfs < z.max ∨ z.label = "BLOWN OUT")
      ∧ ∀ z' ∈ FlowGauge.ZONES, z'.min ≤ cfs →
          (cfs < z'.max ∨ z'.label = "BLOWN OUT") → z' = z) ∧
    (1200 ≤ cfs → (FlowGauge.getStatus cfs).1 = "BLOWN OUT") := by
  constructor
  · rcases lt_or_le cfs 350 with h1 | h1
    · refine ⟨⟨"LOW", 0, 350, "#3B82F6"⟩, by simp [ZONES],
        by rw [getStatus_eq_low h0 h1], h0, Or.inl h1, ?_⟩
      intro z' hz' hmin hm
      simp only [ZONES, List.mem_cons, List.not_mem_nil, or_false] at hz'
      rcases hz' with rfl | rfl | rfl | rfl <;>
        first
        | rfl
        | (exfalso
           dsimp only at hmin hm
           rcases hm with hc | hs
           · linarith
           · first
             | exact absurd hs (by decide)
             | linarith)
    · rcases lt_or_le cfs 750 with h2 | h2
      · refine ⟨⟨"PRIME", 350, 750, "#10B981"⟩, by simp [ZONES],
          by rw [getStatus_eq_prime h1 h2], h1, Or.inl h2, ?_⟩
        intro z' hz' hmin hm
        simp only [ZONES, List.mem_cons, List.not_mem_nil, or_false] at hz'
        rcases hz' with rfl | rfl | rfl | rfl <;>
          first
          | rfl
          | (exfalso
             dsimp only at hmin hm
             rcases hm with hc | hs
             · linarith
             · first
               | exact absurd hs (by decide)
               | linarith)
      · rcases lt_or_le cfs 1200 with h3 | h3
        · refine ⟨⟨"CAUTION", 750, 1200, "#F59E0B"⟩, by simp [ZONES],
            by rw [getStatus_eq_caution h2 h3], h2, Or.inl h3, ?_⟩
          intro z' hz' hmin hm
          simp only [ZONES, List.mem_cons, List.not_mem_nil, or_false] at hz'
          rcases hz' with rfl | rfl | rfl | rfl <;>
            first
            | rfl
            | (exfalso
               dsimp only at hmin hm
               rcases hm with hc | hs
               · linarith
               · first
                 | exact absurd hs (by decide)
                 | linarith)
        · refine ⟨⟨"BLOWN OUT", 1200, MAX_CFS, "#EF4444"⟩, by simp [ZONES],
            by rw [getStatus_eq_blown h3], h3, Or.inr rfl, ?_⟩
          intro z' hz' hmin hm
          simp only [ZONES, List.mem_cons, List.not_mem_nil, or_false] at hz'
          rcases hz' with rfl | rfl | rfl | rfl <;>
            first
            | rfl
            | (exfalso
               dsimp only at hmin hm
               rcases hm with hc | hs
               · linarith
               · first
                 | exact absurd hs (by decide)
                 | linarith)
  · intro h
    rw [getStatus_eq_blown h]

/-- C4 witness: 2500 cfs, above the table's hard-coded bound 2000, still
classifies as BLOWN OUT. -/
theorem C4_total_blown_witness :
    (FlowGauge.getStatus 2500).1 = "BLOWN OUT" :=
  (C4_total_blown 2500 (by norm_num)).2 (by norm_num)

/-- C5: behaviour on negative input.  Corrected: `getZone` does return the
low zone for negatives, but `getStatus` (FlowGauge) matches no table row for
a negative cfs and falls through to its default, the LAST zone — it returns
BLOWN OUT, not LOW.  Neither function throws. -/
theorem C5_negative_input (cfs : ℚ) (h : cfs < 0) :
    (Settings.getZone cfs).1 = Settings.SZone.low
      ∧ (FlowGauge.getStatus cfs).1 = "BLOWN OUT" := by
  constructor
  · rw [getZone_eq_low (by linarith)]
  · rw [getStatus_eq_neg h]

/-- C5 witness: at -5 cfs, `getZone` is low and `getStatus` is BLOWN OUT. -/
theorem C5_negative_input_witness :
    (Settings.getZone (-5)).1 = Settings.SZone.low
      ∧ (FlowGauge.getStatus (-5)).1 = "BLOWN OUT" :=
  C5_negative_input (-5) (by norm_num)

/-- C5 counterexample: `getStatus (-1)` is BLOWN OUT, not the LOW zone the
claim requires of every classification function. -/
theorem C5_counterexample :
    (FlowGauge.getStatus (-1)).1 = "BLOWN OUT"
      ∧ (FlowGauge.getStatus (-1)).1 ≠ "LOW" := by
  decide

end SalmonFlow

namespace SalmonFlow

/-- C6: both gauge projections compute
`sweepStart + (clamp(cfs, 0, maxCfs) / maxCfs) * (sweepEnd - sweepStart)` —
(-135, 135) for the 270-degree FlowGauge, (0, 180) for the Paywall
half-sweep — are monotone in cfs, hit the sweep ends at 0 and `maxCfs`, and
peg at the max angle for cfs above `maxCfs`. -/
theorem C6_gauge_projection (cfs cfs' : ℚ) (hle : cfs ≤ cfs') :
    FlowGauge.cfsToAngle cfs
        = -135 + min (max cfs 0) FlowGauge.MAX_CFS / FlowGauge.MAX_CFS * (135 - -135) ∧
    Paywall.valueToDegrees cfs
        = 0 + min (max cfs 0) Paywall.MAX_CFS / Paywall.MAX_CFS * (180 - 0) ∧
    FlowGauge.cfsToAngle cfs ≤ FlowGauge.cfsToAngle cfs' ∧
    Paywall.valueToDegrees cfs ≤ Paywall.valueToDegrees cfs' ∧
    FlowGauge.cfsToAngle 0 = -135 ∧
    FlowGauge.cfsToAngle FlowGauge.MAX_CFS = 135 ∧
    Paywall.valueToDegrees 0 = 0 ∧
    Paywall.valueToDegrees Paywall.MAX_CFS = 180 ∧
    (FlowGauge.MAX_CFS < cfs → FlowGauge.cfsToAngle cfs = FlowGauge.cfsToAngle FlowGauge.MAX_CFS) ∧
    (Paywall.MAX_CFS < cfs → Paywall.valueToDegrees cfs = Paywall.valueToDegrees Paywall.MAX_CFS) := by
  have hclamp : min (max cfs 0) (2000:ℚ) ≤ min (max cfs' 0) 2000 :=
    min_le_min (max_le_max hle le_rfl) le_rfl
  have keyF : ∀ a b : ℚ, a ≤ b → -135 + a / 2000 * 270 ≤ -135 + b / 2000 * 270 := by
    intro a b hab
    have h1 : a / 2000 ≤ b / 2000 := (div_le_div_right (by norm_num)).mpr hab
    nlinarith
  have keyP : ∀ a b : ℚ, a ≤ b → a / 2000 * 180 ≤ b / 2000 * 180 := by
    intro a b hab
    have h1 : a / 2000 ≤ b / 2000 := (div_le_div_right (by norm_num)).mpr hab
    nlinarith
  refine ⟨?_, ?_, ?_, ?_, ?_, ?_, ?_, ?_, ?_, ?_⟩
  · simp only [FlowGauge.cfsToAngle, FlowGauge.MAX_CFS]
    ring_nf
  · simp only [Paywall.valueToDegrees, Paywall.MAX_CFS]
    ring_nf
  · simp only [FlowGauge.cfsToAngle, FlowGauge.MAX_CFS]
    exact keyF _ _ hclamp
  · simp only [Paywall.valueToDegrees, Paywall.MAX_CFS]
    exact keyP _ _ hclamp
  · norm_num [FlowGauge.cfsToAngle, FlowGauge.MAX_CFS, max_def, min_def]
  · norm_num [FlowGauge.cfsToAngle, FlowGauge.MAX_CFS, max_def, min_def]
  · norm_num [Paywall.valueToDegrees, Paywall.MAX_CFS, max_def, min_def]
  · norm_num [Paywall.valueToDegrees, Paywall.MAX_CFS, max_def, min_def]
  · intro h
    have hm : (FlowGauge.MAX_CFS : ℚ) = 2000 := rfl
    rw [hm] at h
    have h1 : min (max cfs 0) (2000:ℚ) = 2000 :=
      min_eq_right (le_trans (le_of_lt h) (le_max_left _ _))
    have h2 : min (max (2000:ℚ) 0) 2000 = 2000 := by norm_num [max_def, min_def]
    simp only [FlowGauge.cfsToAngle, FlowGauge.MAX_CFS]
    rw [h1, h2]
  · intro h
    have hm : (Paywall.MAX_CFS : ℚ) = 2000 := rfl
    rw [hm] at h
    have h1 : min (max cfs 0) (2000:ℚ) = 2000 :=
      min_eq_right (le_trans (le_of_lt h) (le_max_left _ _))
    have h2 : min (max (2000:ℚ) 0) 2000 = 2000 := by norm_num [max_def, min_def]
    simp only [Paywall.valueToDegrees, Paywall.MAX_CFS]
    rw [h1, h2]

/-- C6 witness: at 2500 cfs both projections peg at the max-cfs angle, and
the needle position at 100 is below the one at 200. -/
theorem C6_gauge_projection_witness :
    FlowGauge.cfsToAngle 2500 = FlowGauge.cfsToAngle FlowGauge.MAX_CFS
      ∧ Paywall.valueToDegrees 2500 = Paywall.valueToDegrees Paywall.MAX_CFS
      ∧ FlowGauge.cfsToAngle 100 ≤ FlowGauge.cfsToAngle 200 :=
  ⟨(C6_gauge_projection 2500 2600 (by norm_num)).2.2.2.2.2.2.2.2.1
      (by norm_num [FlowGauge.MAX_CFS]),
   (C6_gauge_projection 2500 2600 (by norm_num)).2.2.2.2.2.2.2.2.2
      (by norm_num [Paywall.MAX_CFS]),
   (C6_gauge_projection 100 200 (by norm_num)).2.2.1⟩

end SalmonFlow

namespace SalmonFlow

open Settings

/-- With a nonzero first-half average, the rounded trend percent is the
JavaScript rounding of the spec's `percentDiff`. -/
theorem trendRounded_fin (data : List DayData)
    (hnz : ((data.map (·.cfs)).take 3).sum / 3 ≠ 0) :
    trendRounded data
      = JSNum.fin ((jsRound (SpecSide.spec_percentDiff (data.map (·.cfs))) : ℤ) : ℚ) := by
  unfold trendRounded jsDiv
  rw [if_pos hnz]
  rfl

/-- C2: trend classification.  Corrected: the source rounds the percent
difference first and applies the ±10 thresholds to the rounded value
(`Math.round(percentDiff) > 10`, `< -10`), and `weekTrendPercent` is
`|round(percentDiff)|` rather than `round(|percentDiff|)`. -/
theorem C2_trend_rounded (data : List DayData) (h7 : data.length = 7)
    (hnz : ((data.map (·.cfs)).take 3).sum / 3 ≠ 0) :
    ((calculateStats data).weekTrend = Trend.rising
      ↔ 10 < jsRound (SpecSide.spec_percentDiff (data.map (·.cfs)))) ∧
    ((calculateStats data).weekTrend = Trend.falling
      ↔ jsRound (SpecSide.spec_percentDiff (data.map (·.cfs))) < -10) ∧
    ((calculateStats data).weekTrend = Trend.stable
      ↔ (jsRound (SpecSide.spec_percentDiff (data.map (·.cfs))) ≤ 10
          ∧ -10 ≤ jsRound (SpecSide.spec_percentDiff (data.map (·.cfs))))) ∧
    (calculateStats data).weekTrendPercent
      = JSNum.fin |((jsRound (SpecSide.spec_percentDiff (data.map (·.cfs))) : ℤ) : ℚ)| := by
  rw [calculateStats_weekTrend, calculateStats_weekTrendPercent, trendRounded_fin data hnz]
  set k := jsRound (SpecSide.spec_percentDiff (data.map (·.cfs))) with hk
  simp only [JSNum.gtc, JSNum.ltc, JSNum.jabs, decide_eq_true_eq]
  split_ifs with hA hB
  · have hA' : 10 < k := by exact_mod_cast hA
    refine ⟨iff_of_true rfl hA', iff_of_false (by simp) ?_, iff_of_false (by simp) ?_, trivial⟩
    · intro hc
      omega
    · rintro ⟨hle, _⟩
      omega
  · have hB' : k < -10 := by exact_mod_cast hB
    refine ⟨iff_of_false (by simp) ?_, iff_of_true rfl hB', iff_of_false (by simp) ?_, trivial⟩
    · intro hc
      omega
    · rintro ⟨_, hge⟩
      omega
  · have hA' : k ≤ 10 := by
      have := not_lt.mp hA
      exact_mod_cast this
    have hB' : -10 ≤ k := by
      have := not_lt.mp hB
      exact_mod_cast this
    refine ⟨iff_of_false (by simp) ?_, iff_of_false (by simp) ?_,
      iff_of_true rfl ⟨hA', hB'⟩, trivial⟩
    · intro hc
      omega
    · intro hc
      omega

/-- C2 witness: on the mock week the reported percent is the absolute rounded
spec percent. -/
theorem C2_trend_rounded_witness :
    (calculateStats exMockWeek).weekTrendPercent
      = JSNum.fin |((jsRound (SpecSide.spec_percentDiff (exMockWeek.map (·.cfs))) : ℤ) : ℚ)| :=
  (C2_trend_rounded exMockWeek rfl
    (by norm_num [exMockWeek, mkDay])).2.2.2

/-- C2 counterexample: with halves 1000 and 1104 the spec's percentDiff is
10.4 > 10 (claim: rising) but the code reports stable; with halves 1000 and
895 the percentDiff is -10.5, the claim's `round(|percentDiff|)` is 11 but
the code reports 10 (and stable, though -10.5 < -10). -/
theorem C2_counterexample :
    10 < SpecSide.spec_percentDiff (exRiseWeek.map (·.cfs))
      ∧ (calculateStats exRiseWeek).weekTrend = Trend.stable
      ∧ SpecSide.spec_percentDiff (exFallWeek.map (·.cfs)) < -10
      ∧ (calculateStats exFallWeek).weekTrend = Trend.stable
      ∧ jsRound |SpecSide.spec_percentDiff (exFallWeek.map (·.cfs))| = 11
      ∧ (calculateStats exFallWeek).weekTrendPercent = JSNum.fin 10 := by
  norm_num [exRiseWeek, exFallWeek, mkDay, SpecSide.spec_percentDiff, calculateStats,
    jsRound, jsDiv, JSNum.mul100, JSNum.jround, JSNum.gtc, JSNum.ltc, JSNum.jabs,
    getZone, PRIME_ZONE_MIN, PRIME_ZONE_MAX, CAUTION_ZONE_MAX, List.find?, List.filter]
  rw [show |(21:ℚ)/2| = 21/2 from abs_of_nonneg (by norm_num)]
  norm_num

/-- C3: the divide-by-zero edge.  Corrected: the source does not guard a zero
first-half average; instead of the claimed stable/0 fallback it produces
rising with an infinite percent when the second-half average is positive,
stable with a NaN percent when it is zero, and falling with an infinite
percent when it is negative. -/
theorem C3_div_zero_unguarded (data : List DayData)
    (hz : ((data.map (·.cfs)).take 3).sum / 3 = 0) :
    (0 < ((data.map (·.cfs)).drop ((data.map (·.cfs)).length - 3)).sum / 3 →
      (calculateStats data).weekTrend = Trend.rising
        ∧ (calculateStats data).weekTrendPercent = JSNum.inf) ∧
    (((data.map (·.cfs)).drop ((data.map (·.cfs)).length - 3)).sum / 3 = 0 →
      (calculateStats data).weekTrend = Trend.stable
        ∧ (calculateStats data).weekTrendPercent = JSNum.nan) ∧
    (((data.map (·.cfs)).drop ((data.map (·.cfs)).length - 3)).sum / 3 < 0 →
      (calculateStats data).weekTrend = Trend.falling
        ∧ (calculateStats data).weekTrendPercent = JSNum.inf) := by
  have ht : trendRounded data
      = ((jsDiv (((data.map (·.cfs)).drop ((data.map (·.cfs)).length - 3)).sum / 3)
            0).mul100).jround := by
    unfold trendRounded
    rw [hz, sub_zero]
  refine ⟨fun hpos => ?_, fun hzero => ?_, fun hneg => ?_⟩
  · have hdiv : jsDiv (((data.map (·.cfs)).drop ((data.map (·.cfs)).length - 3)).sum / 3) 0
        = JSNum.inf := by
      unfold jsDiv
      rw [if_neg (by simp), if_pos hpos]
    rw [calculateStats_weekTrend, calculateStats_weekTrendPercent, ht, hdiv]
    exact ⟨rfl, rfl⟩
  · have hdiv : jsDiv (((data.map (·.cfs)).drop ((data.map (·.cfs)).length - 3)).sum / 3) 0
        = JSNum.nan := by
      rw [hzero]
      norm_num [jsDiv]
    rw [calculateStats_weekTrend, calculateStats_weekTrendPercent, ht, hdiv]
    exact ⟨rfl, rfl⟩
  · have hdiv : jsDiv (((data.map (·.cfs)).drop ((data.map (·.cfs)).length - 3)).sum / 3) 0
        = JSNum.ninf := by
      unfold jsDiv
      rw [if_neg (by simp), if_neg (by linarith), if_pos hneg]
    rw [calculateStats_weekTrend, calculateStats_weekTrendPercent, ht, hdiv]
    exact ⟨rfl, rfl⟩

/-- C3 witness: a week starting 0, 0, 0 and ending 100, 100, 100, 100 has a
zero first-half average and yields rising with an infinite percent. -/
theorem C3_div_zero_unguarded_witness :
    (calculateStats exZeroStartWeek).weekTrend = Trend.rising
      ∧ (calculateStats exZeroStartWeek).weekTrendPercent = JSNum.inf :=
  (C3_div_zero_unguarded exZeroStartWeek
    (by norm_num [exZeroStartWeek, mkDay])).1
    (by norm_num [exZeroStartWeek, mkDay])

/-- C3 counterexample: on `[0, 0, 0, 100, 100, 100, 100]` the first-half
average is 0 and the code yields rising/Infinity, not the claimed stable/0. -/
theorem C3_counterexample :
    ((exZeroStartWeek.map (·.cfs)).take 3).sum / 3 = 0
      ∧ (calculateStats exZeroStartWeek).weekTrend = Trend.rising
      ∧ (calculateStats exZeroStartWeek).weekTrend ≠ Trend.stable
      ∧ (calculateStats exZeroStartWeek).weekTrendPercent = JSNum.inf
      ∧ (calculateStats exZeroStartWeek).weekTrendPercent ≠ JSNum.fin 0 := by
  norm_num [exZeroStartWeek, mkDay, calculateStats, jsRound, jsDiv, JSNum.mul100,
    JSNum.jround, JSNum.gtc, JSNum.ltc, JSNum.jabs, getZone, PRIME_ZONE_MIN,
    PRIME_ZONE_MAX, CAUTION_ZONE_MAX, List.find?, List.filter]
  exact ⟨by decide, by decide⟩

end SalmonFlow

namespace SalmonFlow

open Settings

/-- C7: per-zone day counts.  Corrected: `calculateStats` emits only
`daysInPrime`, `daysInLow` and `daysInCaution` — there is no blown-out
counter in `WeekStats` — so the emitted counts sum to 7 minus the number of
blown-out readings, and reach 7 exactly when no reading is blown out. -/
theorem C7_zone_counts (data : List DayData) (h7 : data.length = 7) :
    (calculateStats data).daysInPrime + (calculateStats data).daysInLow
        + (calculateStats data).daysInCaution
        + (data.filter (fun d => decide (d.zone = Settings.SZone.blown))).length = 7 ∧
    ((data.filter (fun d => decide (d.zone = Settings.SZone.blown))).length = 0 →
      (calculateStats data).daysInPrime + (calculateStats data).daysInLow
        + (calculateStats data).daysInCaution = 7) := by
  rw [calculateStats_daysInPrime, calculateStats_daysInLow, calculateStats_daysInCaution]
  have hpart := zone_counts_partition data
  rw [h7] at hpart
  exact ⟨hpart, fun h0 => by omega⟩

/-- C7 witness: on a week with one blown-out reading, the three emitted
counters plus the blown count reach 7. -/
theorem C7_zone_counts_witness :
    (calculateStats exBlownWeek).daysInPrime + (calculateStats exBlownWeek).daysInLow
        + (calculateStats exBlownWeek).daysInCaution
        + (exBlownWeek.filter (fun d => decide (d.zone = Settings.SZone.blown))).length = 7 :=
  (C7_zone_counts exBlownWeek rfl).1

/-- C7 counterexample: with the 1500-cfs reading classified blown, the counts
`calculateStats` actually emits sum to 6, not the number of readings. -/
theorem C7_counterexample :
    (Settings.getZone 1500).1 = Settings.SZone.blown
      ∧ exBlownWeek.length = 7
      ∧ (calculateStats exBlownWeek).daysInPrime + (calculateStats exBlownWeek).daysInLow
          + (calculateStats exBlownWeek).daysInCaution = 6
      ∧ (calculateStats exBlownWeek).daysInPrime + (calculateStats exBlownWeek).daysInLow
          + (calculateStats exBlownWeek).daysInCaution ≠ exBlownWeek.length := by
  exact ⟨by decide, rfl, by decide, by decide⟩

/-- C8: `peakFlow`/`lowestFlow` are the maximum/minimum of the cfs values and
`peakDay`/`lowestDay` are the day names of the first readings attaining each
extreme: there is an index attaining the extreme whose day name is reported
and before which no reading attains it. -/
theorem C8_extremes (data : List DayData) (hne : data ≠ []) :
    (∃ d ∈ data, d.cfs = (calculateStats data).peakFlow) ∧
    (∀ d ∈ data, d.cfs ≤ (calculateStats data).peakFlow) ∧
    (∃ i : Fin data.length, (data.get i).cfs = (calculateStats data).peakFlow ∧
      (calculateStats data).peakDay = (data.get i).dayName ∧
      ∀ j : Fin data.length, (j : ℕ) < (i : ℕ) →
        (data.get j).cfs ≠ (calculateStats data).peakFlow) ∧
    (∃ d ∈ data, d.cfs = (calculateStats data).lowestFlow) ∧
    (∀ d ∈ data, (calculateStats data).lowestFlow ≤ d.cfs) ∧
    (∃ i : Fin data.length, (data.get i).cfs = (calculateStats data).lowestFlow ∧
      (calculateStats data).lowestDay = (data.get i).dayName ∧
      ∀ j : Fin data.length, (j : ℕ) < (i : ℕ) →
        (data.get j).cfs ≠ (calculateStats data).lowestFlow) := by
  have hmapne : data.map (·.cfs) ≠ [] := by simpa using hne
  obtain ⟨hpmem, hpub⟩ := max_getD_spec _ hmapne
  obtain ⟨hlmem, hlub⟩ := min_getD_spec _ hmapne
  obtain ⟨dM, hdM_mem, hdM_eq⟩ := List.mem_map.mp hpmem
  obtain ⟨dm, hdm_mem, hdm_eq⟩ := List.mem_map.mp hlmem
  have hfindP : data.find? (fun d => decide (d.cfs = (data.map (·.cfs)).max?.getD 0))
      ≠ none := by
    intro hnone
    rw [List.find?_eq_none] at hnone
    exact hnone dM hdM_mem (by simp [hdM_eq])
  have hfindL : data.find? (fun d => decide (d.cfs = (data.map (·.cfs)).min?.getD 0))
      ≠ none := by
    intro hnone
    rw [List.find?_eq_none] at hnone
    exact hnone dm hdm_mem (by simp [hdm_eq])
  obtain ⟨dP, hdP⟩ := Option.ne_none_iff_exists'.mp hfindP
  obtain ⟨dL, hdL⟩ := Option.ne_none_iff_exists'.mp hfindL
  obtain ⟨iP, hgetP, hpP, hbefP⟩ := find?_first hdP
  obtain ⟨iL, hgetL, hpL, hbefL⟩ := find?_first hdL
  rw [calculateStats_peakFlow, calculateStats_lowestFlow,
    calculateStats_peakDay, calculateStats_lowestDay]
  refine ⟨⟨dM, hdM_mem, hdM_eq⟩, ?_, ⟨iP, ?_, ?_, ?_⟩,
    ⟨dm, hdm_mem, hdm_eq⟩, ?_, ⟨iL, ?_, ?_, ?_⟩⟩
  · intro d hd
    exact hpub _ (List.mem_map_of_mem _ hd)
  · rw [hgetP]
    exact of_decide_eq_true hpP
  · rw [hdP, hgetP]
    rfl
  · intro j hj
    exact of_decide_eq_false (hbefP j hj)
  · intro d hd
    exact hlub _ (List.mem_map_of_mem _ hd)
  · rw [hgetL]
    exact of_decide_eq_true hpL
  · rw [hdL, hgetL]
    rfl
  · intro j hj
    exact of_decide_eq_false (hbefL j hj)

/-- C8 witness: the spec's tie-break example has a reading attaining the
reported peak flow. -/
theorem C8_extremes_witness :
    ∃ d ∈ exTieWeek, d.cfs = (calculateStats exTieWeek).peakFlow :=
  (C8_extremes exTieWeek (by simp [exTieWeek])).1

/-- C9: prime percentage.  Corrected: the denominator is the hard-coded
constant 7, not the number of readings; the two agree exactly on 7-reading
inputs. -/
theorem C9_prime_percentage (data : List DayData) (hne : data ≠ []) :
    (calculateStats data).primePercentage
        = jsRound (((data.filter (fun d => decide (d.zone = Settings.SZone.prime))).length : ℚ)
            / 7 * 100) ∧
    (data.length = 7 →
      (calculateStats data).primePercentage = SpecSide.spec_primePercentage data) := by
  refine ⟨calculateStats_primePercentage data, fun h7 => ?_⟩
  rw [calculateStats_primePercentage]
  unfold SpecSide.spec_primePercentage
  rw [h7]
  norm_num

/-- C9 witness: on the 7-reading mock week the code's prime percentage equals
the spec's `round(daysInPrime / totalDays * 100)`. -/
theorem C9_prime_percentage_witness :
    (calculateStats exMockWeek).primePercentage = SpecSide.spec_primePercentage exMockWeek :=
  (C9_prime_percentage exMockWeek (by simp [exMockWeek])).2 rfl

/-- C9 counterexample: on a single prime reading the code reports
`round(1/7*100) = 14`, while the claim's formula gives 100. -/
theorem C9_counterexample :
    exSingle ≠ []
      ∧ (calculateStats exSingle).primePercentage = 14
      ∧ SpecSide.spec_primePercentage exSingle = 100
      ∧ (calculateStats exSingle).primePercentage ≠ SpecSide.spec_primePercentage exSingle := by
  norm_num [exSingle, mkDay, calculateStats, SpecSide.spec_primePercentage, jsRound,
    getZone, PRIME_ZONE_MIN, PRIME_ZONE_MAX, CAUTION_ZONE_MAX, List.filter, List.find?]

end SalmonFlow

namespace SalmonFlow

open Settings

/-- `List.max?.getD 0` is invariant under permutation. -/
theorem max_getD_perm (l1 l2 : List ℚ) (h : l1.Perm l2) :
    l1.max?.getD 0 = l2.max?.getD 0 := by
  rcases eq_or_ne l1 [] with rfl | hne
  · rw [h.symm.eq_nil]
  · have hne2 : l2 ≠ [] := fun hh => hne (by rw [hh] at h; exact h.eq_nil)
    obtain ⟨hm1, hub1⟩ := max_getD_spec l1 hne
    obtain ⟨hm2, hub2⟩ := max_getD_spec l2 hne2
    exact le_antisymm (hub2 _ (h.mem_iff.mp hm1)) (hub1 _ (h.mem_iff.mpr hm2))

/-- `List.min?.getD 0` is invariant under permutation. -/
theorem min_getD_perm (l1 l2 : List ℚ) (h : l1.Perm l2) :
    l1.min?.getD 0 = l2.min?.getD 0 := by
  rcases eq_or_ne l1 [] with rfl | hne
  · rw [h.symm.eq_nil]
  · have hne2 : l2 ≠ [] := fun hh => hne (by rw [hh] at h; exact h.eq_nil)
    obtain ⟨hm1, hlb1⟩ := min_getD_spec l1 hne
    obtain ⟨hm2, hlb2⟩ := min_getD_spec l2 hne2
    exact le_antisymm (hlb1 _ (h.mem_iff.mpr hm2)) (hlb2 _ (h.mem_iff.mp hm1))

/-- C10: for 7-reading inputs that are permutations of each other,
`calculateStats` agrees on every order-insensitive output: average, extremes,
range, per-zone counts, volatility and prime percentage.  (Only `weekTrend`,
`weekTrendPercent`, `peakDay` and `lowestDay` can depend on the order.) -/
theorem C10_perm_invariant (d1 d2 : List DayData) (hp : d1.Perm d2)
    (h7 : d1.length = 7) :
    (calculateStats d1).avgFlow = (calculateStats d2).avgFlow ∧
    (calculateStats d1).peakFlow = (calculateStats d2).peakFlow ∧
    (calculateStats d1).lowestFlow = (calculateStats d2).lowestFlow ∧
    (calculateStats d1).flowRange = (calculateStats d2).flowRange ∧
    (calculateStats d1).daysInPrime = (calculateStats d2).daysInPrime ∧
    (calculateStats d1).daysInLow = (calculateStats d2).daysInLow ∧
    (calculateStats d1).daysInCaution = (calculateStats d2).daysInCaution ∧
    (calculateStats d1).volatility = (calculateStats d2).volatility ∧
    (calculateStats d1).primePercentage = (calculateStats d2).primePercentage := by
  have hmap : (d1.map (·.cfs)).Perm (d2.map (·.cfs)) := hp.map _
  have hsum : (d1.map (·.cfs)).sum = (d2.map (·.cfs)).sum := hmap.sum_eq
  have hlen : (d1.map (·.cfs)).length = (d2.map (·.cfs)).length := hmap.length_eq
  have hmax : (d1.map (·.cfs)).max?.getD 0 = (d2.map (·.cfs)).max?.getD 0 :=
    max_getD_perm _ _ hmap
  have hmin : (d1.map (·.cfs)).min?.getD 0 = (d2.map (·.cfs)).min?.getD 0 :=
    min_getD_perm _ _ hmap
  have hcount : ∀ z : SZone,
      (d1.filter (fun d => decide (d.zone = z))).length
        = (d2.filter (fun d => decide (d.zone = z))).length :=
    fun z => (hp.filter _).length_eq
  refine ⟨?_, ?_, ?_, ?_, ?_, ?_, ?_, ?_, ?_⟩
  · rw [calculateStats_avgFlow, calculateStats_avgFlow, hsum, hlen]
  · rw [calculateStats_peakFlow, calculateStats_peakFlow, hmax]
  · rw [calculateStats_lowestFlow, calculateStats_lowestFlow, hmin]
  · rw [calculateStats_flowRange, calculateStats_flowRange, hmax, hmin]
  · rw [calculateStats_daysInPrime, calculateStats_daysInPrime, hcount _]
  · rw [calculateStats_daysInLow, calculateStats_daysInLow, hcount _]
  · rw [calculateStats_daysInCaution, calculateStats_daysInCaution, hcount _]
  · rw [calculateStats_volatility, calculateStats_volatility, hmax, hmin]
  · rw [calculateStats_primePercentage, calculateStats_primePercentage, hcount _]

/-- C10 witness: the tie-break week and its shuffle agree on the
order-insensitive statistics. -/
theorem C10_perm_invariant_witness :
    (calculateStats exTieWeek).avgFlow = (calculateStats exTieWeekShuffled).avgFlow
      ∧ (calculateStats exTieWeek).peakFlow = (calculateStats exTieWeekShuffled).peakFlow
      ∧ (calculateStats exTieWeek).primePercentage
          = (calculateStats exTieWeekShuffled).primePercentage :=
  ⟨(C10_perm_invariant exTieWeek exTieWeekShuffled (by decide) rfl).1,
   (C10_perm_invariant exTieWeek exTieWeekShuffled (by decide) rfl).2.1,
   (C10_perm_invariant exTieWeek exTieWeekShuffled (by decide) rfl).2.2.2.2.2.2.2.2⟩

end SalmonFlow
